import Mathlib

/-!
Verification of the aiXplain pipeline graph builder
(`src/aixplain/api/pipeline.py` together with
`src/aixplain/modules/pipeline/designer/enums.py`).

The embedding translates the Python source into plain Lean definitions:

* enums become inductive types;
* the `Pipeline` dataclass becomes a structure parameterised by the
  abstract handle type `H` returned by the external submission
  collaborator (`PipelineFactory.create`), which is modelled as a
  function argument;
* exceptions become `Option`/`Except` results; the `ValueError`
  messages raised by `validate` are kept as structured values
  (`VError`) together with a `message` function reproducing the exact
  Python f-strings;
* Python dicts produced by `dataclasses.asdict` become association
  lists of string keys over a JSON-like value type `JVal`, and the
  in-place `pop`/assignment mutations of `to_dict` become the
  corresponding pure list operations (`dictPop`, `dictSet`), which
  preserve Python's dict-key ordering semantics (updating an existing
  key keeps its position, a new key is appended at the end).

`aixplain/api/base.py`, `aixplain/api/nodes.py` and
`aixplain/api/enums.py` are not part of the source tree given here;
the definitions taken from them are modelled from the specification
and marked as such in their doc comments.
-/

namespace Aixplain

/-- Node kind tags, from `designer/enums.py` (`class NodeType(str, Enum)`). -/
inductive NodeType
  | ASSET
  | INPUT
  | OUTPUT
  | SCRIPT
  | SEGMENTOR
  | RECONSTRUCTOR
  | ROUTER
  | DECISION
deriving DecidableEq

/-- The string value each `NodeType` member carries, from `designer/enums.py`. -/
def NodeType.value : NodeType → String
  | .ASSET => "ASSET"
  | .INPUT => "INPUT"
  | .OUTPUT => "OUTPUT"
  | .SCRIPT => "SCRIPT"
  | .SEGMENTOR => "SEGMENT"
  | .RECONSTRUCTOR => "RECONSTRUCT"
  | .ROUTER => "ROUTER"
  | .DECISION => "DECISION"

/-- Route kind tags, from `designer/enums.py` (`class RouteType(str, Enum)`). -/
inductive RouteType
  | CHECK_TYPE
  | CHECK_VALUE
deriving DecidableEq

/-- Comparison operations, from `designer/enums.py` (`class Operation(str, Enum)`). -/
inductive Operation
  | GREATER_THAN
  | GREATER_THAN_OR_EQUAL
  | LESS_THAN
  | LESS_THAN_OR_EQUAL
  | EQUAL
  | DIFFERENT
  | CONTAIN
  | NOT_CONTAIN
deriving DecidableEq

/-- Modelled from the spec: `DataType` lives in `aixplain/api/enums.py`, which is
not under `src/`; the spec describes it as a closed set of data-kind tags and its
examples use `TEXT` and `IMAGE` (section 8, router expansion test). -/
inductive DataType
  | TEXT
  | IMAGE
  | AUDIO
deriving DecidableEq

/-- Modelled from the spec: the base `Node` of `aixplain/api/base.py` is not under
`src/`. Section 3 of the spec gives its attributes: `number` (positive integer,
the sole identity used for linking), `label` (display name) and `type` (a
`NodeType` tag). The non-owning back-reference to the pipeline is not part of
the serialized data and is omitted here. -/
structure Node where
  number : Nat
  label : String
  type : NodeType
deriving DecidableEq

/-- Modelled from the spec: a parameter-mapping entry of a link,
`{from_param, to_param}` (spec section 3, Link attributes). -/
structure ParamMapping where
  from_param : String
  to_param : String
deriving DecidableEq

/-- Modelled from the spec: the base `Link` of `aixplain/api/base.py` is not under
`src/`. Section 3 of the spec gives its attributes: `from_node` (source node
number), `to_node` (target node number) and `paramMapping` (ordered sequence of
`{from_param, to_param}` pairs, may be empty). -/
structure Link where
  from_node : Nat
  to_node : Nat
  paramMapping : List ParamMapping
deriving DecidableEq

/-- The `Pipeline` dataclass of `aixplain/api/pipeline.py`: ordered node and link
collections plus the optional submission handle. The Python field is named
`instance` (an `InitVar` defaulting to `None`); `instance` is a Lean keyword, so
the field is called `inst` here. `H` is the abstract type of the handle returned
by the external submission collaborator. -/
structure Pipeline (H : Type) where
  nodes : List Node
  links : List Link
  inst : Option H

/-- The four `ValueError` raise sites of `Pipeline.validate`, kept as structured
values so that theorems can tell the branches apart; `VError.message` reproduces
the exact Python message strings. -/
inductive VError
  | inputNotLinkedOut (label : String)
  | outputNotLinkedIn (label : String)
  | nodeNotLinkedIn (label : String)
  | nodeNotLinkedOut (label : String)
deriving DecidableEq

/-- The exact f-string messages of the four raise sites in `Pipeline.validate`. -/
def VError.message : VError → String
  | .inputNotLinkedOut lab => "Input node " ++ lab ++ " not linked out"
  | .outputNotLinkedIn lab => "Output node " ++ lab ++ " not linked in"
  | .nodeNotLinkedIn lab => "Node " ++ lab ++ " not linked in"
  | .nodeNotLinkedOut lab => "Node " ++ lab ++ " not linked out"

/-- The key set of `link_from_map = {link.from_node: link for link in self.links}`:
`node.number not in link_from_map` is exactly non-membership in this list. -/
def linkFromNumbers (links : List Link) : List Nat :=
  links.map fun l => l.from_node

/-- The key set of `link_to_map = {link.to_node: link for link in self.links}`. -/
def linkToNumbers (links : List Link) : List Nat :=
  links.map fun l => l.to_node

/-- The loop body of `Pipeline.validate` for a single node: the three-way branch
on the node type and the four raise sites, translated verbatim (including the
message of each raise site). -/
def checkNode (links : List Link) (node : Node) : Option VError :=
  if node.type = NodeType.INPUT then
    if node.number ∉ linkFromNumbers links then
      some (.inputNotLinkedOut node.label)
    else
      none
  else if node.type = NodeType.OUTPUT then
    if node.number ∉ linkToNumbers links then
      some (.outputNotLinkedIn node.label)
    else
      none
  else
    if node.number ∉ linkFromNumbers links then
      some (.nodeNotLinkedIn node.label)
    else if node.number ∉ linkToNumbers links then
      some (.nodeNotLinkedOut node.label)
    else
      none

/-- The `for node in self.nodes` loop of `Pipeline.validate`: the first raised
error aborts the loop; if no check fires the method returns normally. -/
def validateNodes (links : List Link) : List Node → Option VError
  | [] => none
  | node :: rest =>
    match checkNode links node with
    | some e => some e
    | none => validateNodes links rest

/-- `Pipeline.validate`: `none` models a normal return, `some e` models the
raised `ValueError` `e`. -/
def validate {H : Type} (p : Pipeline H) : Option VError :=
  validateNodes p.links p.nodes

/-- JSON-like values: the shape of the dictionaries produced by
`dataclasses.asdict` and returned by `Pipeline.to_dict`. Objects are
association lists, which keep Python's dict insertion order. -/
inductive JVal
  | jnum (n : Nat)
  | jstr (s : String)
  | jlist (xs : List JVal)
  | jobj (kvs : List (String × JVal))

/-- Python `dict.pop(k)`: the removed value (if the key is present) and the
remaining entries. -/
def dictPop (k : String) : List (String × JVal) → Option JVal × List (String × JVal)
  | [] => (none, [])
  | (k', v) :: rest =>
    if k' = k then (some v, rest)
    else
      let r := dictPop k rest
      (r.1, (k', v) :: r.2)

/-- Python `d[k] = v`: updating an existing key keeps its position, a new key is
appended at the end. -/
def dictSet (k : String) (v : JVal) : List (String × JVal) → List (String × JVal)
  | [] => [(k, v)]
  | (k', v') :: rest =>
    if k' = k then (k, v) :: rest else (k', v') :: dictSet k v rest

/-- Python `d.get(k)` / `d[k]` lookup. -/
def dictGet (k : String) : List (String × JVal) → Option JVal
  | [] => none
  | (k', v) :: rest => if k' = k then some v else dictGet k rest

/-- The idiom `d[new] = d.pop(old)` used by `to_dict` for each rename. In
`to_dict` the popped key is always present (the dicts come from `asdict`);
Python would raise `KeyError` on an absent key, which is unreachable here, so
the absent case leaves the dict unchanged. -/
def renameKey (old new : String) (d : List (String × JVal)) : List (String × JVal) :=
  match dictPop old d with
  | (some v, d') => dictSet new v d'
  | (none, _) => d

/-- `dataclasses.asdict` on a node: its fields in declaration order. Modelled
from the spec: the `Node` dataclass itself is in `aixplain/api/base.py`, not
under `src/`; the wire format of spec section 6 lists the fields as
`{number, label, type, ...}`. The str-enum `type` serializes as its value. -/
def asdictNode (n : Node) : JVal :=
  .jobj [("number", .jnum n.number), ("label", .jstr n.label),
         ("type", .jstr n.type.value)]

/-- `dataclasses.asdict` on a parameter-mapping entry. -/
def asdictParam (pm : ParamMapping) : JVal :=
  .jobj [("from_param", .jstr pm.from_param), ("to_param", .jstr pm.to_param)]

/-- `dataclasses.asdict` on a link: `from_node`, `to_node`, `paramMapping` in
declaration order (spec section 3). -/
def asdictLink (l : Link) : JVal :=
  .jobj [("from_node", .jnum l.from_node), ("to_node", .jnum l.to_node),
         ("paramMapping", .jlist (l.paramMapping.map asdictParam))]

/-- `obj = asdict(self)` in `Pipeline.to_dict`: the two dataclass fields of
`Pipeline` in declaration order (`instance` is an `InitVar` and therefore not a
dataclass field, so `asdict` does not include it). `asdict` builds a fresh tree
of new dicts and lists; values in Lean are immutable, which encodes exactly
that copy semantics. -/
def asdictPipeline {H : Type} (p : Pipeline H) : JVal :=
  .jobj [("nodes", .jlist (p.nodes.map asdictNode)),
         ("links", .jlist (p.links.map asdictLink))]

/-- The inner loop of `to_dict` over `link.get("paramMapping", []) or []`:
`param["from"] = param.pop("from_param")` then
`param["to"] = param.pop("to_param")`. -/
def renameParamObj (j : JVal) : JVal :=
  match j with
  | .jobj kvs => .jobj (renameKey "to_param" "to" (renameKey "from_param" "from" kvs))
  | j => j

/-- The loop body of `to_dict` for one serialized link:
`link["from"] = link.pop("from_node")`, `link["to"] = link.pop("to_node")`,
then the in-place rename of every entry of its `paramMapping` list (mutating
the entries of the list the `paramMapping` key points at). A missing or `None`
`paramMapping` leaves the dict unchanged (`link.get("paramMapping", []) or []`
makes the inner loop a no-op). -/
def renameLinkObj (j : JVal) : JVal :=
  match j with
  | .jobj kvs =>
    let kvs1 := renameKey "from_node" "from" kvs
    let kvs2 := renameKey "to_node" "to" kvs1
    match dictGet "paramMapping" kvs2 with
    | some (.jlist ps) => .jobj (dictSet "paramMapping" (.jlist (ps.map renameParamObj)) kvs2)
    | _ => .jobj kvs2
  | j => j

/-- `Pipeline.to_dict`: `obj = asdict(self)`, then the rename loop over
`obj["links"]`, then `return obj`. -/
def toDict {H : Type} (p : Pipeline H) : JVal :=
  match asdictPipeline p with
  | .jobj kvs =>
    match dictGet "links" kvs with
    | some (.jlist ls) => .jobj (dictSet "links" (.jlist (ls.map renameLinkObj)) kvs)
    | _ => .jobj kvs
  | j => j

/-- State-passing form of `Pipeline.to_dict`: the returned dictionary together
with the pipeline as observable after the call. The method reads `self` only
through `asdict`, which returns a fresh tree of new dicts (documented deep-copy
behaviour of `dataclasses.asdict`); the rename loop mutates that tree only and
the method never assigns to `self`, so the post-state is the receiver
unchanged. -/
def toDictMut {H : Type} (p : Pipeline H) : JVal × Pipeline H :=
  (toDict p, p)

/-- `Pipeline.save`, with the external collaborator `PipelineFactory.create`
passed in as `create` and the random `uuid.uuid4()` suffix passed in as `uuid`.
The result is the raised error (if any) paired with the pipeline state after
the call: on a validation error the exception propagates before any mutation,
so the state is the untouched receiver; on success `instance` holds the handle
returned by `create` for the generated name and serialized graph, and the
returned pipeline is the receiver itself (fluent). -/
def save {H : Type} (create : String → JVal → H) (uuid : String) (p : Pipeline H) :
    Option VError × Pipeline H :=
  match validate p with
  | some e => (some e, p)
  | none =>
    let name := "pipeline-" ++ uuid
    (none, { p with inst := some (create name (toDict p)) })

/-- `Pipeline.run`, with the handle's own run method passed in as
`runInstance` and the forwarded arguments abstracted as one value `a : A`.
`Except.error` carries the exact `ValueError` message; `Except.ok` carries the
handle's result, returned verbatim. -/
def run {H A R : Type} (runInstance : H → A → R) (p : Pipeline H) (a : A) :
    Except String R :=
  match p.inst with
  | none => Except.error "Pipeline not saved"
  | some h => Except.ok (runInstance h a)

/-- Modelled from the spec: `Route` lives in `aixplain/api/nodes.py`, which is
not under `src/`. Section 3 of the spec gives its attributes: `value` (a
`DataType` tag), `path` (ordered list of downstream node references), `type`
(a `RouteType`) and `operation` (a comparison operator). -/
structure Route where
  value : DataType
  path : List Node
  type : RouteType
  operation : Operation
deriving DecidableEq

/-- Modelled from the spec: `Router` lives in `aixplain/api/nodes.py`, which is
not under `src/`; it is the node variant carrying the `routes` configuration
(spec sections 3 and 4.3). Attachment to the pipeline (numbering, labels) is
orthogonal to the route expansion and omitted here. -/
structure Router where
  routes : List Route

/-- `Pipeline.router`: expands each `(dataType, targetNode)` pair into a
`Route(value=route[0], path=[route[1]], type=RouteType.CHECK_TYPE,
operation=Operation.EQUAL)` and passes the list as the `routes` configuration
of the constructed `Router` node. -/
def router (routes : List (DataType × Node)) : Router :=
  { routes := routes.map fun route =>
      { value := route.1, path := [route.2],
        type := RouteType.CHECK_TYPE, operation := Operation.EQUAL } }

/-- The entries of a serialized object, for stating lookup facts. -/
def objEntries : JVal → List (String × JVal)
  | .jobj kvs => kvs
  | _ => []

/-- A run of `validate` that returns normally has passed every node's check. -/
lemma validateNodes_eq_none {links : List Link} :
    ∀ {ns : List Node}, validateNodes links ns = none →
      ∀ n ∈ ns, checkNode links n = none := by
  intro ns
  induction ns with
  | nil => intro _ n hn; cases hn
  | cons m t ih =>
    intro h n hn
    cases hc : checkNode links m with
    | some e => simp [validateNodes, hc] at h
    | none =>
      simp only [validateNodes, hc] at h
      rcases List.mem_cons.mp hn with rfl | hn'
      · exact hc
      · exact ih h n hn'

/-- `validate` reports the first failing node: if every node before `n` passes
its check and `n` fails with `e`, the loop raises `e`. -/
lemma validateNodes_append {links : List Link} {pre : List Node} (n : Node)
    (post : List Node) (hpre : ∀ m ∈ pre, checkNode links m = none) {e : VError}
    (hn : checkNode links n = some e) :
    validateNodes links (pre ++ n :: post) = some e := by
  induction pre with
  | nil => simp [validateNodes, hn]
  | cons m t ih =>
    have hm : checkNode links m = none := hpre m (by simp)
    simp only [List.cons_append, validateNodes, hm]
    exact ih fun x hx => hpre x (by simp [hx])

/-- An error raised by the `validate` loop comes from the check of some node of
the list. -/
lemma validateNodes_some_mem {links : List Link} :
    ∀ {ns : List Node} {e : VError}, validateNodes links ns = some e →
      ∃ n ∈ ns, checkNode links n = some e := by
  intro ns
  induction ns with
  | nil => intro e h; simp [validateNodes] at h
  | cons m t ih =>
    intro e h
    cases hc : checkNode links m with
    | some e' =>
      simp only [validateNodes, hc, Option.some.injEq] at h
      exact ⟨m, by simp, by rw [hc, h]⟩
    | none =>
      simp only [validateNodes, hc] at h
      obtain ⟨n, hn, hcn⟩ := ih h
      exact ⟨n, by simp [hn], hcn⟩

/-- If some node of the pipeline fails its check, `validate` raises. -/
lemma validate_isSome_of_check {H : Type} {p : Pipeline H} {n : Node}
    (hn : n ∈ p.nodes) (hc : checkNode p.links n ≠ none) :
    ∃ e, validate p = some e := by
  cases hv : validate p with
  | some e => exact ⟨e, rfl⟩
  | none =>
    unfold validate at hv
    exact absurd (validateNodes_eq_none hv n hn) hc

/-- The INPUT branch of the loop body, evaluated on an unlinked input node. -/
lemma checkNode_input {links : List Link} {m : Node}
    (ht : m.type = NodeType.INPUT) (hf : m.number ∉ linkFromNumbers links) :
    checkNode links m = some (.inputNotLinkedOut m.label) := by
  simp [checkNode, ht, hf]

/-- The OUTPUT branch of the loop body, evaluated on an unlinked output node. -/
lemma checkNode_output {links : List Link} {m : Node}
    (ht : m.type = NodeType.OUTPUT) (hf : m.number ∉ linkToNumbers links) :
    checkNode links m = some (.outputNotLinkedIn m.label) := by
  simp [checkNode, ht, hf]

/-- Only the INPUT branch produces an `inputNotLinkedOut` error, and it does so
with the node's own label and a number that is missing as a link source. -/
lemma checkNode_eq_inputNotLinkedOut {links : List Link} {m : Node} {lab : String}
    (h : checkNode links m = some (.inputNotLinkedOut lab)) :
    m.type = NodeType.INPUT ∧ m.label = lab ∧ m.number ∉ linkFromNumbers links := by
  unfold checkNode at h
  split_ifs at h <;> simp_all

/-- Only the OUTPUT branch produces an `outputNotLinkedIn` error, and it does so
with the node's own label and a number that is missing as a link target. -/
lemma checkNode_eq_outputNotLinkedIn {links : List Link} {m : Node} {lab : String}
    (h : checkNode links m = some (.outputNotLinkedIn lab)) :
    m.type = NodeType.OUTPUT ∧ m.label = lab ∧ m.number ∉ linkToNumbers links := by
  unfold checkNode at h
  split_ifs at h <;> simp_all

/-- A node's check depends on the link list only through membership of the
node's number among the link sources and targets. -/
lemma checkNode_congr {ls links : List Link} {n : Node}
    (hf : n.number ∈ linkFromNumbers ls ↔ n.number ∈ linkFromNumbers links)
    (ht : n.number ∈ linkToNumbers ls ↔ n.number ∈ linkToNumbers links) :
    checkNode ls n = checkNode links n := by
  simp only [checkNode, hf, ht]

/-- The whole loop depends on the link list only through the source/target
membership of each node's number. -/
lemma validateNodes_congr {ls links : List Link} :
    ∀ {ns : List Node},
      (∀ n ∈ ns, (n.number ∈ linkFromNumbers ls ↔ n.number ∈ linkFromNumbers links)
        ∧ (n.number ∈ linkToNumbers ls ↔ n.number ∈ linkToNumbers links)) →
      validateNodes ls ns = validateNodes links ns := by
  intro ns
  induction ns with
  | nil => intro _; rfl
  | cons m t ih =>
    intro h
    have hm := h m (by simp)
    simp only [validateNodes, checkNode_congr hm.1 hm.2]
    cases checkNode links m with
    | some e => rfl
    | none => exact ih fun n hn => h n (by simp [hn])

/-- A parameter-mapping dict after the rename loop. -/
lemma renameParam_asdict (pm : ParamMapping) :
    renameParamObj (asdictParam pm) =
      .jobj [("from", .jstr pm.from_param), ("to", .jstr pm.to_param)] := rfl

/-- The rename loop over a list of serialized parameter mappings. -/
lemma mapRenameParams (ps : List ParamMapping) :
    (ps.map asdictParam).map renameParamObj =
      ps.map fun pm =>
        JVal.jobj [("from", .jstr pm.from_param), ("to", .jstr pm.to_param)] := by
  induction ps with
  | nil => rfl
  | cons pm t ih =>
    simp only [List.map_cons]
    rw [ih, renameParam_asdict]

/-- A link dict after the rename loop: `from_node`/`to_node` are gone, `from`
and `to` carry their values, `paramMapping` keeps its position. -/
lemma renameLink_asdict (l : Link) :
    renameLinkObj (asdictLink l) =
      .jobj [("paramMapping", .jlist ((l.paramMapping.map asdictParam).map renameParamObj)),
             ("from", .jnum l.from_node), ("to", .jnum l.to_node)] := rfl

/-- The rename loop over all serialized links. -/
lemma mapRenameLinks (ls : List Link) :
    (ls.map asdictLink).map renameLinkObj =
      ls.map fun l => JVal.jobj
        [("paramMapping", .jlist (l.paramMapping.map fun pm =>
            JVal.jobj [("from", .jstr pm.from_param), ("to", .jstr pm.to_param)])),
         ("from", .jnum l.from_node), ("to", .jnum l.to_node)] := by
  induction ls with
  | nil => rfl
  | cons l t ih =>
    simp only [List.map_cons]
    rw [ih, renameLink_asdict, mapRenameParams]

/-- `to_dict` unfolded: the top-level object with the links mapped through the
rename loop. -/
lemma toDict_eq {H : Type} (p : Pipeline H) :
    toDict p = .jobj [("nodes", .jlist (p.nodes.map asdictNode)),
      ("links", .jlist ((p.links.map asdictLink).map renameLinkObj))] := rfl

/-- The minimal valid graph of the spec: INPUT 1, ASSET 2, OUTPUT 3 with links
1→2 and 2→3. -/
def minPipe : Pipeline Nat :=
  ⟨[⟨1, "in-1", .INPUT⟩, ⟨2, "asset-2", .ASSET⟩, ⟨3, "out-3", .OUTPUT⟩],
   [⟨1, 2, []⟩, ⟨2, 3, []⟩], none⟩

/-- The links of `minPipe` with each link duplicated. -/
def dupLinks : List Link := [⟨1, 2, []⟩, ⟨2, 3, []⟩, ⟨1, 2, []⟩, ⟨2, 3, []⟩]

/-- Two INPUT nodes, both unlinked. -/
def twoInputs : Pipeline Unit :=
  ⟨[⟨1, "i1", .INPUT⟩, ⟨2, "i2", .INPUT⟩], [], none⟩

/-- Two OUTPUT nodes, both unlinked. -/
def twoOutputs : Pipeline Unit :=
  ⟨[⟨1, "o1", .OUTPUT⟩, ⟨2, "o2", .OUTPUT⟩], [], none⟩

/-- A single ASSET node that has an outgoing link but no incoming link. -/
def assetOnlyOut : Pipeline Unit := ⟨[⟨2, "a", .ASSET⟩], [⟨2, 3, []⟩], none⟩

/-- A single ASSET node that has an incoming link but no outgoing link. -/
def assetOnlyIn : Pipeline Unit := ⟨[⟨2, "a", .ASSET⟩], [⟨1, 2, []⟩], none⟩

/-- A pipeline failing validation: one unlinked INPUT node. -/
def badInputPipe : Pipeline Nat := ⟨[⟨1, "i", .INPUT⟩], [], none⟩

/-- A freshly constructed pipeline: empty, never saved. -/
def freshPipe : Pipeline Nat := ⟨[], [], none⟩

/-- A pipeline whose instance handle is set. -/
def savedPipe : Pipeline Nat := ⟨[], [], some 5⟩

/-- A concrete submission collaborator returning the handle 7. -/
def constHandle : String → JVal → Nat := fun _ _ => 7

/-- The example link of the serialization round-trip test. -/
def exLink : Link := ⟨1, 2, [⟨"x", "y"⟩]⟩

/-- The serialized example link after the rename loop. -/
def exLinkDict : List (String × JVal) := objEntries (renameLinkObj (asdictLink exLink))

/-- A pipeline holding the example link. -/
def exPipe : Pipeline Nat := ⟨[], [exLink], none⟩

/-- C1: evaluation of `validate` at the failing inputs of the claim. A
non-terminal (ASSET) node whose number is missing only as a link target — the
direction the claim calls "in" — is reported as "not linked out", and one whose
number is missing only as a link source — the claim's "out" direction — is
reported as "not linked in": the two messages of the non-terminal branch are
swapped relative to the claim (and to the convention of the INPUT and OUTPUT
branches of the same method). -/
theorem c1_nonterminal_direction_swapped :
    validate assetOnlyOut = some (.nodeNotLinkedOut "a")
  ∧ VError.message (.nodeNotLinkedOut "a") = "Node a not linked out"
  ∧ validate assetOnlyIn = some (.nodeNotLinkedIn "a")
  ∧ VError.message (.nodeNotLinkedIn "a") = "Node a not linked in" :=
  ⟨by decide, rfl, by decide, rfl⟩

/-- C2 (amended): an INPUT node whose number never appears as a link source
makes `validate` raise; the error names that node ("Input node L not linked
out") when every node preceding it in insertion order passes its own check —
`validate` reports the first failing node only; and conversely an
"Input node L not linked out" error implies some INPUT node labelled L has a
number that never appears as a link source. -/
theorem c2_input_linked_out {H : Type} (p : Pipeline H) :
    (∀ n, n ∈ p.nodes → n.type = NodeType.INPUT →
      n.number ∉ linkFromNumbers p.links → ∃ e, validate p = some e)
  ∧ (∀ pre n post, p.nodes = pre ++ n :: post →
      (∀ m ∈ pre, checkNode p.links m = none) →
      n.type = NodeType.INPUT → n.number ∉ linkFromNumbers p.links →
      validate p = some (.inputNotLinkedOut n.label))
  ∧ (∀ lab, validate p = some (.inputNotLinkedOut lab) →
      ∃ n, n ∈ p.nodes ∧ n.type = NodeType.INPUT ∧ n.label = lab
        ∧ n.number ∉ linkFromNumbers p.links) := by
  refine ⟨?_, ?_, ?_⟩
  · intro n hn ht hf
    exact validate_isSome_of_check hn (by rw [checkNode_input ht hf]; simp)
  · intro pre n post hsplit hpre ht hf
    unfold validate
    rw [hsplit]
    exact validateNodes_append n post hpre (checkNode_input ht hf)
  · intro lab hv
    unfold validate at hv
    obtain ⟨n, hn, hcn⟩ := validateNodes_some_mem hv
    obtain ⟨h1, h2, h3⟩ := checkNode_eq_inputNotLinkedOut hcn
    exact ⟨n, hn, h1, h2, h3⟩

/-- C2 witness: in the two-unlinked-inputs pipeline, the amended theorem yields
that `validate` raises, that it names the first input node, and that the name
it reports does point at an unlinked INPUT node. -/
theorem c2_witness :
    (∃ e, validate twoInputs = some e)
  ∧ validate twoInputs = some (.inputNotLinkedOut "i1")
  ∧ (∃ n, n ∈ twoInputs.nodes ∧ n.type = NodeType.INPUT ∧ n.label = "i1"
      ∧ n.number ∉ linkFromNumbers twoInputs.links) :=
  ⟨(c2_input_linked_out twoInputs).1 ⟨2, "i2", NodeType.INPUT⟩ (by decide) rfl
      (by decide),
   (c2_input_linked_out twoInputs).2.1 [] ⟨1, "i1", NodeType.INPUT⟩
      [⟨2, "i2", NodeType.INPUT⟩] rfl (by decide) rfl (by decide),
   (c2_input_linked_out twoInputs).2.2 "i1" (by decide)⟩

/-- C2 counterexample: with two unlinked INPUT nodes, `validate` raises an
error naming only the first one; for the second node the claimed "exactly
when" fails — its number never appears as a link source, yet no error naming
it is raised. -/
theorem c2_counterexample :
    (⟨2, "i2", NodeType.INPUT⟩ : Node) ∈ twoInputs.nodes
  ∧ (2 : Nat) ∉ linkFromNumbers twoInputs.links
  ∧ validate twoInputs = some (.inputNotLinkedOut "i1")
  ∧ ¬ validate twoInputs = some (.inputNotLinkedOut "i2") := by decide

/-- C3 (amended): an OUTPUT node whose number never appears as a link target
makes `validate` raise; the error names that node ("Output node L not linked
in") when every node preceding it in insertion order passes its own check —
`validate` reports the first failing node only; and conversely an
"Output node L not linked in" error implies some OUTPUT node labelled L has a
number that never appears as a link target. -/
theorem c3_output_linked_in {H : Type} (p : Pipeline H) :
    (∀ n, n ∈ p.nodes → n.type = NodeType.OUTPUT →
      n.number ∉ linkToNumbers p.links → ∃ e, validate p = some e)
  ∧ (∀ pre n post, p.nodes = pre ++ n :: post →
      (∀ m ∈ pre, checkNode p.links m = none) →
      n.type = NodeType.OUTPUT → n.number ∉ linkToNumbers p.links →
      validate p = some (.outputNotLinkedIn n.label))
  ∧ (∀ lab, validate p = some (.outputNotLinkedIn lab) →
      ∃ n, n ∈ p.nodes ∧ n.type = NodeType.OUTPUT ∧ n.label = lab
        ∧ n.number ∉ linkToNumbers p.links) := by
  refine ⟨?_, ?_, ?_⟩
  · intro n hn ht hf
    exact validate_isSome_of_check hn (by rw [checkNode_output ht hf]; simp)
  · intro pre n post hsplit hpre ht hf
    unfold validate
    rw [hsplit]
    exact validateNodes_append n post hpre (checkNode_output ht hf)
  · intro lab hv
    unfold validate at hv
    obtain ⟨n, hn, hcn⟩ := validateNodes_some_mem hv
    obtain ⟨h1, h2, h3⟩ := checkNode_eq_outputNotLinkedIn hcn
    exact ⟨n, hn, h1, h2, h3⟩

/-- C3 witness: in the two-unlinked-outputs pipeline, the amended theorem
yields that `validate` raises, that it names the first output node, and that
the reported name points at an unlinked OUTPUT node. -/
theorem c3_witness :
    (∃ e, validate twoOutputs = some e)
  ∧ validate twoOutputs = some (.outputNotLinkedIn "o1")
  ∧ (∃ n, n ∈ twoOutputs.nodes ∧ n.type = NodeType.OUTPUT ∧ n.label = "o1"
      ∧ n.number ∉ linkToNumbers twoOutputs.links) :=
  ⟨(c3_output_linked_in twoOutputs).1 ⟨2, "o2", NodeType.OUTPUT⟩ (by decide) rfl
      (by decide),
   (c3_output_linked_in twoOutputs).2.1 [] ⟨1, "o1", NodeType.OUTPUT⟩
      [⟨2, "o2", NodeType.OUTPUT⟩] rfl (by decide) rfl (by decide),
   (c3_output_linked_in twoOutputs).2.2 "o1" (by decide)⟩

/-- C3 counterexample: with two unlinked OUTPUT nodes, `validate` raises an
error naming only the first one; for the second node the claimed "exactly
when" fails — its number never appears as a link target, yet no error naming
it is raised. -/
theorem c3_counterexample :
    (⟨2, "o2", NodeType.OUTPUT⟩ : Node) ∈ twoOutputs.nodes
  ∧ (2 : Nat) ∉ linkToNumbers twoOutputs.links
  ∧ validate twoOutputs = some (.outputNotLinkedIn "o1")
  ∧ ¬ validate twoOutputs = some (.outputNotLinkedIn "o2") := by decide

/-- C4: the minimal graph — INPUT 1, ASSET 2, OUTPUT 3 with links 1→2 and
2→3 — passes `validate` without error; and validation depends on the link list
only through the existence of a link with the given source/target number for
each node, so any link list with the same source/target membership (for
instance one with duplicated links) validates identically. -/
theorem c4_minimal_graph_valid {H : Type} (p : Pipeline H) (ls : List Link)
    (h : ∀ n ∈ p.nodes,
      (n.number ∈ linkFromNumbers ls ↔ n.number ∈ linkFromNumbers p.links)
      ∧ (n.number ∈ linkToNumbers ls ↔ n.number ∈ linkToNumbers p.links)) :
    validate minPipe = none
  ∧ validate (⟨p.nodes, ls, p.inst⟩ : Pipeline H) = validate p := by
  refine ⟨by decide, ?_⟩
  unfold validate
  exact validateNodes_congr h

/-- C4 witness: the minimal graph validates, and duplicating each of its links
does not change the result of validation. -/
theorem c4_witness :
    validate minPipe = none
  ∧ validate (⟨minPipe.nodes, dupLinks, minPipe.inst⟩ : Pipeline Nat) =
      validate minPipe :=
  c4_minimal_graph_valid minPipe dupLinks (by decide)

/-- C5: `save` first runs `validate`; on a validation error the error
propagates, the result does not depend on the submission collaborator (it is
never invoked), and the pipeline state — in particular its `instance` field —
is left untouched; on success `save` submits the generated name and the
`to_dict` serialization to the collaborator, stores the returned handle as
`instance`, and returns the pipeline itself. -/
theorem c5_save_lifecycle {H : Type} (create c₂ : String → JVal → H)
    (uuid : String) (p : Pipeline H) :
    (∀ e, validate p = some e →
      save create uuid p = (some e, p) ∧ save c₂ uuid p = (some e, p))
  ∧ (validate p = none →
      save create uuid p =
        (none, { p with inst := some (create ("pipeline-" ++ uuid) (toDict p)) })) := by
  constructor
  · intro e he
    constructor <;> simp [save, he]
  · intro he
    simp [save, he]

/-- C5 witness: saving a pipeline with an unlinked input propagates the
validation error and leaves the pipeline untouched, for any collaborator;
saving the minimal valid graph stores the collaborator's handle. -/
theorem c5_witness :
    save constHandle "u" badInputPipe =
      (some (.inputNotLinkedOut "i"), badInputPipe)
  ∧ save constHandle "u" minPipe = (none, { minPipe with inst := some 7 }) :=
  ⟨((c5_save_lifecycle constHandle constHandle "u" badInputPipe).1
      (.inputNotLinkedOut "i") (by decide)).1,
   (c5_save_lifecycle constHandle constHandle "u" minPipe).2 (by decide)⟩

/-- C6 (amended): `run` raises the error with message "Pipeline not saved"
(capital P, unlike the claim's quoted "pipeline not saved") exactly when the
instance handle is unset; otherwise it forwards its arguments to the stored
handle's run operation and returns that result verbatim. -/
theorem c6_run_requires_save {H A R : Type} (f : H → A → R) (p : Pipeline H)
    (a : A) :
    (p.inst = none → run f p a = Except.error "Pipeline not saved")
  ∧ (∀ h, p.inst = some h → run f p a = Except.ok (f h a)) := by
  constructor
  · intro h; simp [run, h]
  · intro h hh; simp [run, hh]

/-- C6 witness: running a fresh pipeline raises "Pipeline not saved"; running a
saved pipeline forwards the argument to the handle's run operation. -/
theorem c6_witness :
    run (fun (_ : Nat) (a : Nat) => a + 1) freshPipe 3 =
      Except.error "Pipeline not saved"
  ∧ run (fun (_ : Nat) (a : Nat) => a + 1) savedPipe 3 = Except.ok 4 :=
  ⟨(c6_run_requires_save (fun _ a => a + 1) freshPipe 3).1 rfl,
   (c6_run_requires_save (fun _ a => a + 1) savedPipe 3).2 5 rfl⟩

/-- C6 counterexample: the message raised when running a never-saved pipeline
is "Pipeline not saved", which is not the claim's quoted message
"pipeline not saved". -/
theorem c6_counterexample :
    run (fun (_ : Nat) (a : Nat) => a) freshPipe 0 =
      Except.error "Pipeline not saved"
  ∧ "Pipeline not saved" ≠ "pipeline not saved" :=
  ⟨rfl, by decide⟩

/-- C7: `to_dict` returns the object with keys "nodes" and "links", nodes and
links in insertion order, every link's `from_node`/`to_node` renamed to
`from`/`to` and every parameter-mapping entry's `from_param`/`to_param`
renamed to `from`/`to`; in particular the link `from_node=1, to_node=2,
paramMapping=[(from_param "x", to_param "y")]` serializes to the dict binding
"from" to 1, "to" to 2 and "paramMapping" to the single entry binding "from"
to "x" and "to" to "y", with the old key names absent. -/
theorem c7_to_dict_renames {H : Type} (p : Pipeline H) :
    toDict p = .jobj [("nodes", .jlist (p.nodes.map asdictNode)),
      ("links", .jlist (p.links.map fun l => JVal.jobj
        [("paramMapping", .jlist (l.paramMapping.map fun pm =>
            JVal.jobj [("from", .jstr pm.from_param), ("to", .jstr pm.to_param)])),
         ("from", .jnum l.from_node), ("to", .jnum l.to_node)]))]
  ∧ renameLinkObj (asdictLink exLink) =
      .jobj [("paramMapping", .jlist [.jobj [("from", .jstr "x"), ("to", .jstr "y")]]),
             ("from", .jnum 1), ("to", .jnum 2)]
  ∧ dictGet "from" exLinkDict = some (.jnum 1)
  ∧ dictGet "to" exLinkDict = some (.jnum 2)
  ∧ dictGet "from_node" exLinkDict = none
  ∧ dictGet "to_node" exLinkDict = none := by
  refine ⟨?_, rfl, rfl, rfl, rfl, rfl⟩
  rw [toDict_eq, mapRenameLinks]

/-- C8: `router` expands its `(dataType, targetNode)` pairs into exactly one
`Route` per pair, in order, each with the pair's data type as `value`,
`CHECK_TYPE` as `type`, `EQUAL` as `operation`, and the single-element path
holding the pair's target node. -/
theorem c8_router_expansion (routes : List (DataType × Node)) :
    (router routes).routes.length = routes.length
  ∧ ∀ i : Nat, (router routes).routes[i]? =
      routes[i]?.map fun r =>
        ({ value := r.1, path := [r.2], type := RouteType.CHECK_TYPE,
           operation := Operation.EQUAL } : Route) := by
  constructor
  · simp [router]
  · intro i
    simp [router]

/-- C9: `to_dict` does not mutate the pipeline: the state observable after the
call has the same node and link collections element for element, and those
links still serialize under the original key names `from_node`, `to_node`,
`from_param`, `to_param` (with no `from`/`to` keys) — the renaming exists only
on the returned copy. -/
theorem c9_to_dict_no_mutation {H : Type} (p : Pipeline H) :
    (toDictMut p).2.nodes = p.nodes
  ∧ (toDictMut p).2.links = p.links
  ∧ (∀ l ∈ (toDictMut p).2.links,
      dictGet "from_node" (objEntries (asdictLink l)) = some (.jnum l.from_node)
      ∧ dictGet "to_node" (objEntries (asdictLink l)) = some (.jnum l.to_node)
      ∧ dictGet "from" (objEntries (asdictLink l)) = none
      ∧ dictGet "to" (objEntries (asdictLink l)) = none)
  ∧ (∀ l ∈ (toDictMut p).2.links, ∀ pm ∈ l.paramMapping,
      dictGet "from_param" (objEntries (asdictParam pm)) = some (.jstr pm.from_param)
      ∧ dictGet "to_param" (objEntries (asdictParam pm)) = some (.jstr pm.to_param)
      ∧ dictGet "from" (objEntries (asdictParam pm)) = none
      ∧ dictGet "to" (objEntries (asdictParam pm)) = none) := by
  refine ⟨rfl, rfl, ?_, ?_⟩
  · intro l _
    exact ⟨rfl, rfl, rfl, rfl⟩
  · intro l _ pm _
    exact ⟨rfl, rfl, rfl, rfl⟩

/-- C9 witness: the theorem evaluated on the example pipeline and its link. -/
theorem c9_witness :
    (toDictMut exPipe).2.nodes = exPipe.nodes
  ∧ (toDictMut exPipe).2.links = exPipe.links
  ∧ dictGet "from_node" (objEntries (asdictLink exLink)) = some (.jnum 1)
  ∧ dictGet "from" (objEntries (asdictLink exLink)) = none
  ∧ dictGet "from_param" (objEntries (asdictParam ⟨"x", "y"⟩)) = some (.jstr "x") :=
  ⟨(c9_to_dict_no_mutation exPipe).1,
   (c9_to_dict_no_mutation exPipe).2.1,
   ((c9_to_dict_no_mutation exPipe).2.2.1 exLink (by decide)).1,
   ((c9_to_dict_no_mutation exPipe).2.2.1 exLink (by decide)).2.2.1,
   ((c9_to_dict_no_mutation exPipe).2.2.2 exLink (by decide) ⟨"x", "y"⟩
      (by decide)).1⟩

/-- C10: a pipeline with an empty node collection passes `validate` whatever
its link collection and instance handle are, and `save` on such a (fresh)
pipeline proceeds to submit the serialized graph and stores the handle. -/
theorem c10_empty_nodes_always_valid {H : Type} (ls : List Link) (i : Option H)
    (create : String → JVal → H) (u : String) :
    validate (⟨[], ls, i⟩ : Pipeline H) = none
  ∧ save create u (⟨[], ls, none⟩ : Pipeline H) =
      (none, (⟨[], ls,
        some (create ("pipeline-" ++ u) (toDict (⟨[], ls, none⟩ : Pipeline H)))⟩ :
          Pipeline H)) :=
  ⟨rfl, rfl⟩

end Aixplain
